import Mathlib

/-!
Shallow embedding of the Detoxify backend (src/Backend/server.js) in Lean 4.

The embedded code is the session orchestrator `runDetoxAutomation`, its cookie
normalization step, its watch loop, and the `/detox/start` request handler.
External asynchronous collaborators (the content resolver `getCuratedVideoIds`,
the browser engine launch, page creation, cookie injection, and per-page
navigation) are modelled as an environment record: each fallible external step
is an `Option String`, where `none` means the awaited call succeeds and
`some m` means it throws an exception carrying message `m`.  A run produces the
ordered list of events emitted to the subscriber, the number of times the
browser engine was closed, which item navigations were attempted, which items
were watched (with their dwell times), and the accumulated watched time.
-/

namespace Detoxify

/-- A credential entry (browser cookie record), as handled by the
normalization step of `runDetoxAutomation`.  Optional fields model
JavaScript properties that may be absent (`none`) on the object. -/
structure Cookie where
  name : String
  value : String
  domain : Option String
  path : Option String
  expirationDate : Option Int
  session : Bool
  sameSite : Option String
  storeId : Option String
  id : Option String
deriving Repr, DecidableEq

/-- The `toLowerCase()` string method, modelled character by character (the
sameSite values compared against are all ASCII). -/
def toLowerCase (s : String) : String := ⟨s.data.map Char.toLower⟩

/-- Normalization of the `sameSite` property of one cookie, embedded from
the branch structure of server.js lines 68-79: a truthy string (present and
non-empty) is lowercased and compared; `no_restriction` becomes `None`; a
lowercase value other than `strict`/`lax`/`none` causes the property to be
deleted; otherwise the original value is kept unchanged.  A `null`/absent
value is deleted (a no-op under the `Option` model).  An empty string is
falsy in JavaScript, is not `null`/`undefined`, and so is kept unchanged. -/
def normalizeSameSite (v : Option String) : Option String :=
  match v with
  | some s =>
    if s ≠ "" then
      let normalizedSameSite := toLowerCase s
      if normalizedSameSite = "no_restriction" then some "None"
      else if normalizedSameSite ≠ "strict" ∧ normalizedSameSite ≠ "lax" ∧
          normalizedSameSite ≠ "none" then none
      else some s
    else some s
  | none => none

/-- Per-entry cookie normalization, embedded from server.js lines 60-81:
delete `storeId` and `id`; if `session` is truthy delete `expirationDate`;
then normalize `sameSite`. -/
def normalizeCookie (c : Cookie) : Cookie :=
  let c1 : Cookie := { c with storeId := none, id := none }
  let c2 : Cookie := if c1.session then { c1 with expirationDate := none } else c1
  { c2 with sameSite := normalizeSameSite c2.sameSite }

/-- The raw credential blob together with its parse outcome: `none` models a
falsy `rawCookies` argument (not provided); `some none` models a provided blob
on which `JSON.parse` fails to produce a sequence of entry records;
`some (some cs)` models a blob parsing to the entry list `cs`. -/
abbrev RawCredentials := Option (Option (List Cookie))

/-- Credential validation and normalization, embedded from server.js lines
49-81: a missing blob throws the not-provided error, an unparseable blob
throws the invalid-JSON error, and a parsed list is mapped through
`normalizeCookie` without any further failure. -/
def parseCredentials (raw : RawCredentials) : Except String (List Cookie) :=
  match raw with
  | none => .error "User authentication failed: Cookies were not provided."
  | some none => .error "User authentication failed: Cookies format is invalid JSON."
  | some (some cs) => .ok (cs.map normalizeCookie)

/-- The 30-second minimum watch time per video, from server.js line 10. -/
def MIN_WATCH_TIME_PER_VIDEO_MS : Nat := 30000

/-- Formatting of `(ms / 1000).toFixed(1)` for a whole number of
milliseconds: the number of seconds with one decimal digit, rounding the
tenths digit half-up (exact for the multiples of 100 ms produced here). -/
def toFixed1 (ms : Nat) : String :=
  let tenths := (ms + 50) / 100
  let whole := tenths / 10
  let frac := tenths % 10
  s!"{whole}.{frac}"

/-- An event pushed to the subscriber: a non-terminal `log`, or one of the
two terminal events `detoxComplete` / `detoxError`. -/
inductive Event where
  | log (message : String) (type : String)
  | detoxComplete (message : String)
  | detoxError (message : String)
deriving Repr, DecidableEq

/-- Whether an event is a non-terminal `log` event. -/
def Event.isLog : Event → Bool
  | .log _ _ => true
  | _ => false

/-- Whether an event is the success terminal event. -/
def Event.isComplete : Event → Bool
  | .detoxComplete _ => true
  | _ => false

/-- Whether an event is the failure terminal event. -/
def Event.isError : Event → Bool
  | .detoxError _ => true
  | _ => false

/-- The environment of one run: the outcome of every external asynchronous
call `runDetoxAutomation` awaits.  For each fallible step, `none` means
success and `some m` means the call throws with message `m`.  `contentNav i`
is the outcome of the `page.goto` for the video at index `i` of the resolved
list. -/
structure Env where
  rawCookies : RawCredentials
  resolve : Except String (List String)
  launch : Option String
  newPage : Option String
  setCookie : Option String
  homeNav : Option String
  loginIndicator : Bool
  contentNav : Nat → Option String

/-- Outcome of the watch loop: the log events it emitted, the indices whose
content-page navigation was attempted, the `(index, dwell ms)` pairs of items
watched to completion, the final accumulated watched time, and the message of
the exception that aborted the loop, when one did. -/
structure LoopOut where
  events : List Event
  attempts : List Nat
  visits : List (Nat × Nat)
  watchedTime : Nat
  err : Option String
deriving Repr, DecidableEq

/-- The watch loop of server.js lines 119-136.  For each video, in resolved
order: stop when `watched >= totalMs`; otherwise compute the dwell as the
minimum of the per-item cap and the remaining budget, emit the progress log,
navigate to the content page (aborting the run on failure), hold for the
dwell, and accumulate it. -/
def loopGo (nav : Nat → Option String) (total : Nat) (idx : Nat)
    (ids : List String) (watched : Nat) (totalMs : Nat) : LoopOut :=
  match ids with
  | [] => ⟨[], [], [], watched, none⟩
  | _vid :: rest =>
    if watched ≥ totalMs then ⟨[], [], [], watched, none⟩
    else
      let remainingTime := totalMs - watched
      let watchDuration := min MIN_WATCH_TIME_PER_VIDEO_MS remainingTime
      let durationSeconds := toFixed1 watchDuration
      let n := idx + 1
      let ev := Event.log s!"Watching video {n}/{total} for {durationSeconds}s."
        "status-in-progress"
      match nav idx with
      | some m => ⟨[ev], [idx], [], watched, some m⟩
      | none =>
        let r := loopGo nav total (idx + 1) rest (watched + watchDuration) totalMs
        ⟨ev :: r.events, idx :: r.attempts, (idx, watchDuration) :: r.visits,
          r.watchedTime, r.err⟩

/-- Outcome of the `try` block of `runDetoxAutomation`: the non-terminal
events emitted, whether the browser engine was assigned (launch succeeded),
navigation attempts, completed visits, watched time, and the message of the
exception caught by the `catch` block, when one was thrown. -/
structure CoreOut where
  events : List Event
  launched : Bool
  attempts : List Nat
  visits : List (Nat × Nat)
  watchedTime : Nat
  err : Option String

/-- The body of the `try` block of `runDetoxAutomation` (server.js lines
48-140): validate and normalize cookies, resolve the video list, reject an
empty list, launch the browser, create the page, inject cookies, navigate to
the home page, check the signed-in indicator (non-fatal), then run the watch
loop.  Each `some m` outcome of an external step models that step throwing. -/
def runCore (env : Env) (totalDurationSeconds : Nat) : CoreOut :=
  let e0 := [Event.log "Validating authentication data..." "status-in-progress"]
  match parseCredentials env.rawCookies with
  | .error m => ⟨e0, false, [], [], 0, some m⟩
  | .ok _cookies =>
    let e1 := e0 ++
      [Event.log "Cookies parsed and normalized. Fetching video list..."
        "status-in-progress"]
    match env.resolve with
    | .error m => ⟨e1, false, [], [], 0, some m⟩
    | .ok videoIds =>
      if videoIds.length = 0 then
        ⟨e1, false, [], [], 0,
          some "Could not find relevant long-form videos for this topic."⟩
      else
        let k := videoIds.length
        let e2 := e1 ++
          [Event.log s!"Found {k} videos. Initiating browser automation..."
            "status-in-progress"]
        match env.launch with
        | some m => ⟨e2, false, [], [], 0, some m⟩
        | none =>
          match env.newPage with
          | some m => ⟨e2, true, [], [], 0, some m⟩
          | none =>
            let e3 := e2 ++
              [Event.log "Applying user session cookies..." "status-in-progress"]
            match env.setCookie with
            | some m => ⟨e3, true, [], [], 0, some m⟩
            | none =>
              let e4 := e3 ++
                [Event.log "Cookies set. Navigating to YouTube..."
                  "status-in-progress"]
              match env.homeNav with
              | some m => ⟨e4, true, [], [], 0, some m⟩
              | none =>
                let loginEv :=
                  if env.loginIndicator then
                    Event.log "SUCCESS: Login confirmed." "status-success"
                  else
                    Event.log
                      "WARNING: Login verification failed. Cookies may be expired."
                      "status-error"
                let e5 := e4 ++ [loginEv]
                let r := loopGo env.contentNav videoIds.length 0 videoIds 0
                  (totalDurationSeconds * 1000)
                ⟨e5 ++ r.events, true, r.attempts, r.visits, r.watchedTime, r.err⟩

/-- Observable outcome of one whole run of `runDetoxAutomation`. -/
structure RunResult where
  events : List Event
  closes : Nat
  launched : Bool
  attempts : List Nat
  visits : List (Nat × Nat)
  watchedTime : Nat

/-- The orchestrator `runDetoxAutomation` (server.js lines 44-150): run the
`try` block; on success emit `detoxComplete` with the final message, on a
caught exception emit `detoxError` with its message; in the `finally` block
close the browser exactly when it was assigned by a successful launch. -/
def runDetoxAutomation (env : Env) (totalDurationSeconds : Nat) : RunResult :=
  let core := runCore env totalDurationSeconds
  let t := toFixed1 core.watchedTime
  let term :=
    match core.err with
    | none =>
      Event.detoxComplete s!"Detox session finished. Total time simulated: {t}s."
    | some m => Event.detoxError m
  { events := core.events ++ [term]
    closes := if core.launched then 1 else 0
    launched := core.launched
    attempts := core.attempts
    visits := core.visits
    watchedTime := core.watchedTime }

/-- Path predicate on the environment alone: the run gets past credential
parsing and content resolution (non-empty list) and the engine launch call
succeeds, i.e. the `browser` variable is assigned. -/
def launchSucceeds (env : Env) : Bool :=
  match parseCredentials env.rawCookies with
  | .error _ => false
  | .ok _ =>
    match env.resolve with
    | .error _ => false
    | .ok videoIds => !(videoIds.length = 0) && env.launch.isNone

/-- The JavaScript defaulting expression `duration || 60` on an optional
numeric field: an absent or zero (falsy) value yields 60, any other value
passes through. -/
def jsOrSixty (duration : Option Nat) : Nat :=
  match duration with
  | none => 60
  | some d => if d = 0 then 60 else d

/-- Response of the `/detox/start` handler. -/
inductive HandlerResponse where
  | badRequest (message : String)
  | accepted (message : String) (runDuration : Nat)
deriving Repr, DecidableEq

/-- The `/detox/start` request handler (server.js lines 153-161): reject with
400 when `topic`, `userCookies` or `socketId` is falsy (absent or empty),
otherwise acknowledge and start the run with duration `duration || 60`.
`runDuration` is the value handed to `runDetoxAutomation`. -/
def detoxStartHandler (topic : Option String) (duration : Option Nat)
    (userCookies : Option String) (socketId : Option String) : HandlerResponse :=
  if topic.getD "" = "" ∨ userCookies.getD "" = "" ∨ socketId.getD "" = "" then
    .badRequest "Missing required parameters."
  else
    .accepted "Process initiated." (jsOrSixty duration)

/-! Helper lemmas shared by the claim theorems. -/

theorem loopGo_events_all_log (nav : Nat → Option String) (total idx : Nat)
    (ids : List String) (watched totalMs : Nat) :
    (loopGo nav total idx ids watched totalMs).events.all Event.isLog = true := by
  induction ids generalizing idx watched with
  | nil => simp [loopGo]
  | cons v rest ih =>
    simp only [loopGo]
    split
    · simp
    · cases h : nav idx with
      | some m => simp [h, Event.isLog]
      | none => simp [h, Event.isLog, ih]

theorem all_log_countP_eq_zero (p : Event → Bool)
    (hp : ∀ e, e.isLog = true → p e = false)
    (l : List Event) (hl : l.all Event.isLog = true) : l.countP p = 0 := by
  induction l with
  | nil => simp
  | cons e t ih =>
    simp only [List.all_cons, Bool.and_eq_true] at hl
    rw [List.countP_cons, hp e hl.1, ih hl.2]
    simp

theorem runCore_events_all_log (env : Env) (s : Nat) :
    (runCore env s).events.all Event.isLog = true := by
  obtain ⟨rc, res, la, np, sc, hn, li, cn⟩ := env
  simp only [runCore]
  cases hpc : parseCredentials rc with
  | error m => simp [Event.isLog]
  | ok cookies =>
    cases res with
    | error m => simp [Event.isLog]
    | ok videoIds =>
      by_cases hlen : videoIds.length = 0
      · simp [hlen, Event.isLog]
      · cases la with
        | some m => simp [hlen, Event.isLog]
        | none =>
          cases np with
          | some m => simp [hlen, Event.isLog]
          | none =>
            cases sc with
            | some m => simp [hlen, Event.isLog]
            | none =>
              cases hn with
              | some m => simp [hlen, Event.isLog]
              | none =>
                cases li <;>
                  simp [hlen, Event.isLog, loopGo_events_all_log]

theorem runCore_launched_eq (env : Env) (s : Nat) :
    (runCore env s).launched = launchSucceeds env := by
  obtain ⟨rc, res, la, np, sc, hn, li, cn⟩ := env
  simp only [runCore, launchSucceeds]
  cases hpc : parseCredentials rc with
  | error m => simp
  | ok cookies =>
    cases res with
    | error m => simp
    | ok videoIds =>
      by_cases hlen : videoIds.length = 0
      · simp [hlen]
      · cases la with
        | some m => simp [hlen]
        | none =>
          cases np with
          | some m => simp [hlen, Option.isNone]
          | none =>
            cases sc with
            | some m => simp [hlen, Option.isNone]
            | none =>
              cases hn with
              | some m => simp [hlen, Option.isNone]
              | none => simp [hlen, Option.isNone]

/-- C1: in every run of `runDetoxAutomation`, the browser engine is closed
exactly once when the launch step was reached and succeeded, whatever happens
afterwards (success, content failure, navigation failure, or any later
exception), and it is never closed when the run fails before or at launch. -/
theorem engine_close_exactly_on_launch (env : Env) (s : Nat) :
    (runDetoxAutomation env s).closes = if launchSucceeds env then 1 else 0 := by
  simp only [runDetoxAutomation, runCore_launched_eq]

/-- C2: every run of `runDetoxAutomation` emits exactly one terminal event:
the counts of `detoxComplete` and `detoxError` events sum to one, so exactly
one of the two occurs, never both and never more than one, regardless of the
non-terminal log events emitted before it. -/
theorem exactly_one_terminal_event (env : Env) (s : Nat) :
    (runDetoxAutomation env s).events.countP Event.isComplete
      + (runDetoxAutomation env s).events.countP Event.isError = 1 := by
  simp only [runDetoxAutomation]
  rw [List.countP_append, List.countP_append]
  have hall := runCore_events_all_log env s
  have h1 := all_log_countP_eq_zero Event.isComplete
    (by intro e he; cases e <;> simp_all [Event.isLog, Event.isComplete]) _ hall
  have h2 := all_log_countP_eq_zero Event.isError
    (by intro e he; cases e <;> simp_all [Event.isLog, Event.isError]) _ hall
  rw [h1, h2]
  cases h : (runCore env s).err <;>
    simp [h, Event.isComplete, Event.isError, List.countP, List.countP.go]

theorem getLast?_append_singleton {α : Type} (l : List α) (x : α) :
    (l ++ [x]).getLast? = some x := by
  induction l with
  | nil => rfl
  | cons a t ih =>
    cases t with
    | nil => rfl
    | cons b t2 =>
      rw [List.cons_append, List.cons_append, List.getLast?_cons_cons]
      exact ih

/-- C3: with a total duration of 65 seconds, per-item cap 30000 ms, at least
four resolved identifiers and no failure anywhere, the run visits exactly the
first three items with dwell times 30000 ms, 30000 ms and 5000 ms in that
order, and never attempts a fourth navigation. -/
theorem watch_loop_65s_dwells (env : Env) (cs : List Cookie)
    (a b c d : String) (rest : List String)
    (hrc : env.rawCookies = some (some cs))
    (hres : env.resolve = .ok (a :: b :: c :: d :: rest))
    (hla : env.launch = none) (hnp : env.newPage = none)
    (hsc : env.setCookie = none) (hhn : env.homeNav = none)
    (hnav : ∀ i, env.contentNav i = none) :
    (runDetoxAutomation env 65).visits = [(0, 30000), (1, 30000), (2, 5000)] ∧
    (runDetoxAutomation env 65).attempts = [0, 1, 2] := by
  obtain ⟨rc, res, la, np, sc, hn, li, cn⟩ := env
  simp only at hrc hres hla hnp hsc hhn hnav
  subst hrc hres hla hnp hsc hhn
  simp [runDetoxAutomation, runCore, parseCredentials, loopGo, hnav,
    MIN_WATCH_TIME_PER_VIDEO_MS]

/-- C4: invoked with a zero total duration and a non-empty resolved list (and
no failure anywhere), the run visits zero items, attempts no content
navigation, and ends with the success terminal event reporting a 0.0s
total. -/
theorem zero_duration_zero_visits (env : Env) (cs : List Cookie)
    (v : String) (rest : List String)
    (hrc : env.rawCookies = some (some cs))
    (hres : env.resolve = .ok (v :: rest))
    (hla : env.launch = none) (hnp : env.newPage = none)
    (hsc : env.setCookie = none) (hhn : env.homeNav = none) :
    (runDetoxAutomation env 0).visits = [] ∧
    (runDetoxAutomation env 0).attempts = [] ∧
    (runDetoxAutomation env 0).events.getLast? =
      some (Event.detoxComplete
        "Detox session finished. Total time simulated: 0.0s.") := by
  obtain ⟨rc, res, la, np, sc, hn, li, cn⟩ := env
  simp only at hrc hres hla hnp hsc hhn
  subst hrc hres hla hnp hsc hhn
  refine ⟨?_, ?_, ?_⟩
  · simp [runDetoxAutomation, runCore, parseCredentials, loopGo]
  · simp [runDetoxAutomation, runCore, parseCredentials, loopGo]
  · simp [runDetoxAutomation, runCore, parseCredentials, loopGo,
      getLast?_append_singleton]
    decide

/-- C5: when the content resolver returns an empty sequence (after the
credentials parsed), the browser engine is never launched, never closed, and
the run emits exactly one `detoxError` event and no `detoxComplete` event. -/
theorem empty_resolution_no_launch (env : Env) (s : Nat) (cs : List Cookie)
    (hrc : env.rawCookies = some (some cs))
    (hres : env.resolve = .ok []) :
    (runDetoxAutomation env s).launched = false ∧
    (runDetoxAutomation env s).closes = 0 ∧
    (runDetoxAutomation env s).events.countP Event.isError = 1 ∧
    (runDetoxAutomation env s).events.countP Event.isComplete = 0 := by
  obtain ⟨rc, res, la, np, sc, hn, li, cn⟩ := env
  simp only at hrc hres
  subst hrc hres
  simp [runDetoxAutomation, runCore, parseCredentials, List.countP,
    List.countP.go, Event.isError, Event.isComplete]

/-- C6: when navigation to the second item of a five-item resolved list
fails (and everything up to it succeeded, with enough budget to reach it),
the run aborts at that item: only items 1 and 2 are ever navigated to, only
item 1 completes its dwell, exactly one `detoxError` and no `detoxComplete`
is emitted, and the engine is closed exactly once. -/
theorem nav_failure_aborts_run (env : Env) (s : Nat) (cs : List Cookie)
    (v1 v2 v3 v4 v5 m : String)
    (hrc : env.rawCookies = some (some cs))
    (hres : env.resolve = .ok [v1, v2, v3, v4, v5])
    (hla : env.launch = none) (hnp : env.newPage = none)
    (hsc : env.setCookie = none) (hhn : env.homeNav = none)
    (h0 : env.contentNav 0 = none) (h1 : env.contentNav 1 = some m)
    (hs : 30 < s) :
    (runDetoxAutomation env s).attempts = [0, 1] ∧
    (runDetoxAutomation env s).visits = [(0, 30000)] ∧
    (runDetoxAutomation env s).events.countP Event.isError = 1 ∧
    (runDetoxAutomation env s).events.countP Event.isComplete = 0 ∧
    (runDetoxAutomation env s).closes = 1 := by
  obtain ⟨rc, res, la, np, sc, hn, li, cn⟩ := env
  simp only at hrc hres hla hnp hsc hhn h0 h1
  subst hrc hres hla hnp hsc hhn
  have hA : ¬ (s * 1000 ≤ 0) := by omega
  have hA2 : ¬ (s * 1000 = 0) := by omega
  have hB : ¬ (s * 1000 ≤ 30000) := by omega
  have h2 : min 30000 (s * 1000) = 30000 := by omega
  have h2b : min 30000 (s * 1000 - 0) = 30000 := by omega
  cases li <;>
    refine ⟨?_, ?_, ?_, ?_, ?_⟩ <;>
    simp [runDetoxAutomation, runCore, parseCredentials, loopGo,
      MIN_WATCH_TIME_PER_VIDEO_MS, hA, hA2, hB, h2, h2b, h0, h1,
      Event.isError, Event.isComplete, List.countP_append, List.countP_cons]

theorem normalizeCookie_sameSite (c : Cookie) :
    (normalizeCookie c).sameSite = normalizeSameSite c.sameSite := by
  cases hs : c.session <;> simp [normalizeCookie, hs]

/-- A concrete credential entry whose sameSitePolicy is the uppercase string
`STRICT`. -/
def strictUpperCookie : Cookie :=
  { name := "SID", value := "abc", domain := some ".example.com",
    path := some "/", expirationDate := some 1700000000, session := false,
    sameSite := some "STRICT", storeId := some "0", id := some "7" }

/-- C7 counterexample: the entry with sameSitePolicy `STRICT` is normalized
to `STRICT` unchanged — the casing is not canonicalized, and the resulting
field is neither absent nor one of the three valid enum values `Strict`,
`Lax`, `None`. -/
theorem sameSite_not_canonicalized_cex :
    (normalizeCookie strictUpperCookie).sameSite = some "STRICT" ∧
    ¬ ((normalizeCookie strictUpperCookie).sameSite = none ∨
       (normalizeCookie strictUpperCookie).sameSite = some "Strict" ∨
       (normalizeCookie strictUpperCookie).sameSite = some "Lax" ∨
       (normalizeCookie strictUpperCookie).sameSite = some "None") := by
  decide

/-- C7 amended: per-entry normalization of sameSitePolicy behaves as: a
non-empty value lowercasing to `no_restriction` becomes exactly `None`; a
non-empty value lowercasing to `strict`, `lax` or `none` passes through with
its original casing unchanged; any other non-empty value causes the field to
be removed; an absent field stays absent; an empty-string value passes
through unchanged — so a normalized entry's sameSitePolicy is absent, the
empty string, exactly `None`, or a value whose lowercase form is `strict`,
`lax` or `none`. -/
theorem sameSite_normalization_amended (c : Cookie) :
    (∀ t, c.sameSite = some t → t ≠ "" → toLowerCase t = "no_restriction" →
      (normalizeCookie c).sameSite = some "None") ∧
    (∀ t, c.sameSite = some t → t ≠ "" →
      (toLowerCase t = "strict" ∨ toLowerCase t = "lax" ∨ toLowerCase t = "none") →
      (normalizeCookie c).sameSite = some t) ∧
    (∀ t, c.sameSite = some t → t ≠ "" → toLowerCase t ≠ "no_restriction" →
      toLowerCase t ≠ "strict" → toLowerCase t ≠ "lax" → toLowerCase t ≠ "none" →
      (normalizeCookie c).sameSite = none) ∧
    (c.sameSite = none → (normalizeCookie c).sameSite = none) ∧
    (c.sameSite = some "" → (normalizeCookie c).sameSite = some "") ∧
    ((normalizeCookie c).sameSite = none ∨
     (normalizeCookie c).sameSite = some "" ∨
     (normalizeCookie c).sameSite = some "None" ∨
     ∃ t, (normalizeCookie c).sameSite = some t ∧
       (toLowerCase t = "strict" ∨ toLowerCase t = "lax" ∨ toLowerCase t = "none")) := by
  refine ⟨?_, ?_, ?_, ?_, ?_, ?_⟩
  · intro t ht hne hnr
    rw [normalizeCookie_sameSite, ht]
    simp [normalizeSameSite, hne, hnr]
  · intro t ht hne hcase
    rw [normalizeCookie_sameSite, ht]
    rcases hcase with h | h | h <;> simp [normalizeSameSite, hne, h]
  · intro t ht hne h1 h2 h3 h4
    rw [normalizeCookie_sameSite, ht]
    simp [normalizeSameSite, hne, h1, h2, h3, h4]
  · intro h
    rw [normalizeCookie_sameSite, h]
    simp [normalizeSameSite]
  · intro h
    rw [normalizeCookie_sameSite, h]
    simp [normalizeSameSite]
  · rw [normalizeCookie_sameSite]
    cases hv : c.sameSite with
    | none => exact Or.inl rfl
    | some t =>
      by_cases he : t = ""
      · subst he
        right; left
        simp [normalizeSameSite]
      · by_cases hnr : toLowerCase t = "no_restriction"
        · right; right; left
          simp [normalizeSameSite, he, hnr]
        · by_cases h1 : toLowerCase t = "strict"
          · right; right; right
            exact ⟨t, by simp [normalizeSameSite, he, hnr, h1], Or.inl h1⟩
          · by_cases h2 : toLowerCase t = "lax"
            · right; right; right
              exact ⟨t, by simp [normalizeSameSite, he, hnr, h1, h2],
                Or.inr (Or.inl h2)⟩
            · by_cases h3 : toLowerCase t = "none"
              · right; right; right
                exact ⟨t, by simp [normalizeSameSite, he, hnr, h1, h2, h3],
                  Or.inr (Or.inr h3)⟩
              · left
                simp [normalizeSameSite, he, hnr, h1, h2, h3]

/-- A concrete entry with sameSitePolicy `no_restriction`, exported by
browsers and rejected by the engine unless mapped to `None`. -/
def noRestrictionCookie : Cookie :=
  { name := "PREF", value := "x1", domain := some ".example.com",
    path := some "/", expirationDate := none, session := false,
    sameSite := some "no_restriction", storeId := none, id := none }

/-- C7 amended witness: the `no_restriction` entry is normalized to exactly
`None`. -/
theorem sameSite_normalization_amended_witness :
    (normalizeCookie noRestrictionCookie).sameSite = some "None" :=
  (sameSite_normalization_amended noRestrictionCookie).1 "no_restriction" rfl
    (by decide) (by decide)

/-- A concrete session cookie carrying all the engine-incompatible fields. -/
def sessionCookie : Cookie :=
  { name := "SIDCC", value := "v9", domain := some ".example.com",
    path := some "/", expirationDate := some 1699999999, session := true,
    sameSite := some "Lax", storeId := some "0", id := some "12" }

/-- C8: a normalized entry never carries `storeId` or `id`, and a normalized
session entry never carries `expirationDate`. -/
theorem normalized_cookie_strips_ids (c : Cookie) :
    (normalizeCookie c).storeId = none ∧ (normalizeCookie c).id = none ∧
    (c.session = true → (normalizeCookie c).expirationDate = none) := by
  cases hs : c.session <;> simp [normalizeCookie, hs]

/-- C8 witness: the concrete session cookie loses `storeId`, `id` and
`expirationDate`. -/
theorem normalized_cookie_strips_ids_witness :
    (normalizeCookie sessionCookie).storeId = none ∧
    (normalizeCookie sessionCookie).id = none ∧
    (normalizeCookie sessionCookie).expirationDate = none := by
  have h := normalized_cookie_strips_ids sessionCookie
  exact ⟨h.1, h.2.1, h.2.2 rfl⟩

/-- C9: credential normalization fails exactly when the raw blob is absent
or does not parse to a sequence of entry records, and on every parsed entry
list it succeeds, returning the pure per-entry map — the transformation
never fails once parsing succeeded. -/
theorem parseCredentials_error_iff (raw : RawCredentials) :
    ((∃ e, parseCredentials raw = .error e) ↔ (raw = none ∨ raw = some none)) ∧
    (∀ cs, raw = some (some cs) →
      parseCredentials raw = .ok (cs.map normalizeCookie)) := by
  constructor
  · constructor
    · intro he
      obtain ⟨e, he⟩ := he
      match raw with
      | none => exact Or.inl rfl
      | some none => exact Or.inr rfl
      | some (some cs) => simp [parseCredentials] at he
    · intro h
      rcases h with h | h <;> subst h <;> exact ⟨_, rfl⟩
  · intro cs h
    subst h
    rfl

/-- C9 witness: a parsed one-entry list is normalized without failure. -/
theorem parseCredentials_error_iff_witness :
    parseCredentials (some (some [sessionCookie])) =
      .ok [normalizeCookie sessionCookie] :=
  (parseCredentials_error_iff (some (some [sessionCookie]))).2 [sessionCookie] rfl

/-- C10: with all required fields present, the entry handler replaces a
falsy duration — absent or an explicit 0 — with the default 60 before the
run starts, and passes any nonzero duration through unchanged. -/
theorem duration_defaulting (topic userCookies socketId : String)
    (d : Option Nat) (ht : topic ≠ "") (hc : userCookies ≠ "")
    (hs : socketId ≠ "") :
    ((d = none ∨ d = some 0) →
      detoxStartHandler (some topic) d (some userCookies) (some socketId) =
        .accepted "Process initiated." 60) ∧
    (∀ n, d = some n → n ≠ 0 →
      detoxStartHandler (some topic) d (some userCookies) (some socketId) =
        .accepted "Process initiated." n) := by
  constructor
  · rintro (h | h) <;> subst h <;>
      simp [detoxStartHandler, jsOrSixty, ht, hc, hs]
  · intro n h hn
    subst h
    simp [detoxStartHandler, jsOrSixty, ht, hc, hs, hn]

/-- C10 witness: a request with an explicit duration of 0 starts a run of 60
seconds. -/
theorem duration_defaulting_witness :
    detoxStartHandler (some "rust programming") (some 0) (some "cookieblob")
      (some "sock-1") = .accepted "Process initiated." 60 :=
  (duration_defaulting "rust programming" "cookieblob" "sock-1" (some 0)
    (by decide) (by decide) (by decide)).1 (Or.inr rfl)

/-- A concrete environment in which every external step succeeds and four
videos are resolved. -/
def envAllOk : Env :=
  { rawCookies := some (some []), resolve := .ok ["a1", "b2", "c3", "d4"],
    launch := none, newPage := none, setCookie := none, homeNav := none,
    loginIndicator := true, contentNav := fun _ => none }

/-- C3 witness: the concrete all-success run of 65 seconds over four videos
visits exactly items 1-3 with dwells 30000 ms, 30000 ms and 5000 ms. -/
theorem watch_loop_65s_dwells_witness :
    (runDetoxAutomation envAllOk 65).visits =
      [(0, 30000), (1, 30000), (2, 5000)] ∧
    (runDetoxAutomation envAllOk 65).attempts = [0, 1, 2] :=
  watch_loop_65s_dwells envAllOk [] "a1" "b2" "c3" "d4" [] rfl rfl rfl rfl rfl
    rfl (fun _ => rfl)

/-- C4 witness: the concrete all-success run of 0 seconds visits nothing and
completes with a 0.0s total. -/
theorem zero_duration_zero_visits_witness :
    (runDetoxAutomation envAllOk 0).visits = [] ∧
    (runDetoxAutomation envAllOk 0).attempts = [] ∧
    (runDetoxAutomation envAllOk 0).events.getLast? =
      some (Event.detoxComplete
        "Detox session finished. Total time simulated: 0.0s.") :=
  zero_duration_zero_visits envAllOk [] "a1" ["b2", "c3", "d4"] rfl rfl rfl rfl
    rfl rfl

/-- A concrete environment whose content resolver returns the empty list. -/
def envEmptyResolve : Env :=
  { rawCookies := some (some []), resolve := .ok [], launch := none,
    newPage := none, setCookie := none, homeNav := none,
    loginIndicator := false, contentNav := fun _ => none }

/-- C5 witness: the concrete empty-resolution run never launches, never
closes, and emits exactly one `detoxError`. -/
theorem empty_resolution_no_launch_witness :
    (runDetoxAutomation envEmptyResolve 60).launched = false ∧
    (runDetoxAutomation envEmptyResolve 60).closes = 0 ∧
    (runDetoxAutomation envEmptyResolve 60).events.countP Event.isError = 1 ∧
    (runDetoxAutomation envEmptyResolve 60).events.countP Event.isComplete
      = 0 :=
  empty_resolution_no_launch envEmptyResolve 60 [] rfl rfl

/-- A concrete environment resolving five videos in which navigation to the
second content page throws. -/
def envNavFail2 : Env :=
  { rawCookies := some (some []),
    resolve := .ok ["a1", "b2", "c3", "d4", "e5"],
    launch := none, newPage := none, setCookie := none, homeNav := none,
    loginIndicator := true,
    contentNav := fun i =>
      if i = 1 then some "Navigation timeout of 60000 ms exceeded" else none }

/-- C6 witness: in the concrete run with a failing item-2 navigation, only
items 1 and 2 are navigated to, only item 1 completes, exactly one
`detoxError` is emitted, and the engine is closed once. -/
theorem nav_failure_aborts_run_witness :
    (runDetoxAutomation envNavFail2 300).attempts = [0, 1] ∧
    (runDetoxAutomation envNavFail2 300).visits = [(0, 30000)] ∧
    (runDetoxAutomation envNavFail2 300).events.countP Event.isError = 1 ∧
    (runDetoxAutomation envNavFail2 300).events.countP Event.isComplete = 0 ∧
    (runDetoxAutomation envNavFail2 300).closes = 1 :=
  nav_failure_aborts_run envNavFail2 300 [] "a1" "b2" "c3" "d4" "e5"
    "Navigation timeout of 60000 ms exceeded" rfl rfl rfl rfl rfl rfl rfl rfl
    (by decide)

end Detoxify
